import Mathlib

/-!
Verification of the Tortillas test-system core against its sources.

The definitions below are a shallow embedding of `src/tortillas/log_analyzer.py`
and the scheduler callback of `src/tortillas/test_runner.py`.  Python machine
behaviour (string slicing, `int()` parsing, `repr()` formatting, truthiness of
`None`/empty values) is modelled explicitly.  Modules of the repository that are
not under `src/` (`constants.py`, `test_specification.py`, `tortillas_config.py`,
`qemu_interface.py`, the old `test.py`) are modelled from the specification and
are marked as such in their doc comments.
-/

/-- Test outcome, from `log_analyzer.py` (`class TestStatus(Enum)`).
All members carry a nonzero value, hence every member is truthy in Python. -/
inductive TestStatus where
  | PANIC
  | FAILED
  | TIMEOUT
  | SUCCESS
  | DISABLED
  | NOT_RUN
deriving DecidableEq

/-- Watchdog outcome. Modelled from the spec: `qemu_interface.py` is not under
`src/`; the spec (§3, §4.2) gives `WAITING | FOUND | TIMEOUT | STOPPED`. -/
inductive InterruptWatchdog.Status where
  | WAITING
  | FOUND
  | TIMEOUT
  | STOPPED
deriving DecidableEq

/-- Result of a test run, from `log_analyzer.py` (`@dataclass class TestResult`):
a status, an ordered error list (dataclass default `[]`) and a retry flag
(dataclass default `False`). -/
structure TestResult where
  status : TestStatus
  errors : List String
  retry : Bool
deriving DecidableEq

/-- One test specification. Modelled from the spec: `test_specification.py` is
not under `src/`; the fields are the ones `log_analyzer.py` reads
(`disabled`, `expect_timeout`, `expect_stdout`, `expect_exit_codes`),
typed per spec §3. `expect_stdout` and `expect_exit_codes` are optional;
Python treats `None` and empty values as falsy, which is modelled explicitly
at each use site. -/
structure TestSpec where
  disabled : Bool
  expect_timeout : Bool
  expect_stdout : Option String
  expect_exit_codes : Option (List Int)
deriving DecidableEq

/-- One analyze rule. Modelled from the spec: `tortillas_config.py` is not under
`src/`; per spec §3 and the uses in `log_analyzer.py`, an entry has a bucket
`name`, a `mode` string and an optional `set_status` string naming a
`TestStatus` member. -/
structure AnalyzeConfigEntry where
  name : String
  mode : String
  set_status : Option String
deriving DecidableEq

/-- The marker on guest stdout lines. Modelled from the spec: `constants.py`
(defining `TORTILLAS_EXPECT_PREFIX`) is not under `src/`; the spec (§6) says
guest stdout lines carry a fixed marker string, and the claims use this one. -/
def TORTILLAS_EXPECT_MARKER : String := "##EXPECT##"

/-! ### Python primitives used by the analyzer -/

/-- ASCII whitespace accepted by Python `int(str)` around the number. -/
def pySpace (c : Char) : Bool :=
  c == ' ' || c == '\t' || c == '\n' || c == '\r' || c == '\x0b' || c == '\x0c'

/-- Digit-sequence part of Python `int(str)`: a leading digit, then digits with
single underscores allowed between digits. -/
def pyDigitsGo (acc : Nat) : List Char → Option Nat
  | [] => some acc
  | '_' :: d :: rest =>
      if d.isDigit then pyDigitsGo (acc * 10 + (d.toNat - 48)) rest else none
  | '_' :: [] => none
  | d :: rest =>
      if d.isDigit then pyDigitsGo (acc * 10 + (d.toNat - 48)) rest else none

/-- Parse a nonempty decimal digit string (with Python underscore grouping). -/
def pyDigits : List Char → Option Nat
  | [] => none
  | d :: rest => if d.isDigit then pyDigitsGo (d.toNat - 48) rest else none

/-- Model of Python `int(str)` on decimal strings: surrounding ASCII
whitespace, an optional single sign, then digits with underscore grouping.
`none` models a raised `ValueError`. -/
def pyInt (s : String) : Option Int :=
  let cs := s.toList.dropWhile pySpace
  let cs := (cs.reverse.dropWhile pySpace).reverse
  match cs with
  | '+' :: ds => (pyDigits ds).map (fun n => (n : Int))
  | '-' :: ds => (pyDigits ds).map (fun n => -(n : Int))
  | ds => (pyDigits ds).map (fun n => (n : Int))

/-- Lowercase hex digit, as produced by Python `repr` escapes. -/
def hexDig (n : Nat) : Char :=
  if n < 10 then Char.ofNat (48 + n) else Char.ofNat (87 + n)

/-- Numeric value of a lowercase hex digit. -/
def hexVal (c : Char) : Nat :=
  if c.isDigit then c.toNat - 48 else c.toNat - 87

/-- Escape of one character inside a Python string `repr` quoted with `q`:
backslash and the quote character are backslash-escaped, newline, carriage
return and tab use their short escapes, other control characters (and DEL)
use a two-digit hex escape, everything else stands for itself. -/
def escChar (q c : Char) : List Char :=
  if c = '\\' then ['\\', '\\']
  else if c = q then ['\\', q]
  else if c = '\n' then ['\\', 'n']
  else if c = '\r' then ['\\', 'r']
  else if c = '\t' then ['\\', 't']
  else if c.toNat < 32 ∨ c.toNat = 127 then
    ['\\', 'x', hexDig (c.toNat / 16), hexDig (c.toNat % 16)]
  else [c]

/-- Escape a character list for Python `repr` with quote character `q`. -/
def pyEscape (q : Char) : List Char → List Char
  | [] => []
  | c :: cs => escChar q c ++ pyEscape q cs

/-- Quote character Python `repr` picks: single quote, unless the string
contains a single quote and no double quote. -/
def pyQuote (s : String) : Char :=
  if s.toList.contains '\'' && !(s.toList.contains '"') then '"' else '\''

/-- Model of Python `repr` on strings (faithful on ASCII; printable non-ASCII
is kept verbatim). -/
def pyRepr (s : String) : String :=
  String.mk (pyQuote s :: (pyEscape (pyQuote s) s.toList ++ [pyQuote s]))

/-- Python `str.startswith`: a character-level prefix test. -/
def pyStartsWith (line pre : String) : Bool :=
  pre.toList.isPrefixOf line.toList

/-- Python slice `s[a:]`, counting characters. -/
def pyDrop (s : String) (a : Nat) : String :=
  String.mk (s.toList.drop a)

/-- Python slice `s[:-k]`: everything but the last `k` characters (empty when
the string is no longer than `k`). -/
def pyDropRight (s : String) (k : Nat) : String :=
  String.mk (s.toList.take (s.toList.length - k))

/-! ### TestResult methods, from `log_analyzer.py` -/

/-- Embeds `TestResult._set_status`: Python keeps the current status when the
argument is falsy (`None`; every `TestStatus` member is truthy). -/
def TestResult.set_status (r : TestResult) (status : Option TestStatus) : TestResult :=
  match status with
  | none => r
  | some s => { r with status := s }

/-- Embeds `TestResult.add_errors`: an empty list is falsy, so nothing happens;
otherwise every line is appended and `_set_status` is called. -/
def TestResult.add_errors (r : TestResult) (errors : List String)
    (status : Option TestStatus) : TestResult :=
  match errors with
  | [] => r
  | _ => TestResult.set_status { r with errors := r.errors ++ errors } status

/-- Embeds the reconstruction loop of `TestResult.check_expect_stdout`:
lines not starting with the marker are skipped (their index still counts);
a marker line loses the marker and its last character — its last two
characters when it is the final line of `logs`.  `n` is the length of the
full log list, `i` the index of the head of the remaining list. -/
def collectExpect (n i : Nat) : List String → List String
  | [] => []
  | line :: rest =>
      if pyStartsWith line TORTILLAS_EXPECT_MARKER then
        (if i = n - 1 then
            pyDropRight (pyDrop line TORTILLAS_EXPECT_MARKER.length) 2
          else
            pyDropRight (pyDrop line TORTILLAS_EXPECT_MARKER.length) 1)
          :: collectExpect n (i + 1) rest
      else collectExpect n (i + 1) rest

/-- The stdout string `check_expect_stdout` reconstructs from the bucket. -/
def joinedActual (logs : List String) : String :=
  String.join (collectExpect logs.length 0 logs)

/-- Embeds `TestResult.check_expect_stdout`: nothing happens when
`expect_stdout` is falsy (`None` or the empty string); otherwise the
reconstructed stdout's `repr` is compared with the expectation's `repr`,
and on a difference the expected and actual strings are appended as two
errors and `_set_status` is called. -/
def TestResult.check_expect_stdout (r : TestResult) (logs : List String)
    (test_spec : TestSpec) (status : Option TestStatus) : TestResult :=
  match test_spec.expect_stdout with
  | none => r
  | some es =>
    if es = "" then r
    else
      let actual := pyRepr (joinedActual logs)
      let expected := pyRepr es
      if actual = expected then r
      else
        TestResult.set_status
          { r with errors := r.errors ++
              ["Expected output:\n" ++ expected, "Actual output:\n" ++ actual] }
          status

/-- Embeds the `for exit_code in exit_codes` loop of
`TestResult.check_exit_codes`, with the `unexpected_exit_codes` flag
accumulated; a parse failure appends its error, forces `FAILED` and `retry`
and stops; after the loop, if any mismatch occurred the expected codes are
appended and `_set_status` is called. -/
def exitCodesLoop (r : TestResult) (codes : List String) (expect : List Int)
    (unexpected : Bool) (status : Option TestStatus) : TestResult :=
  match codes with
  | [] =>
      if unexpected then
        TestResult.set_status
          { r with errors := r.errors ++
              ["Expected exit code(s): " ++
                String.intercalate ", " (expect.map toString)] }
          status
      else r
  | c :: rest =>
      match pyInt c with
      | none =>
          { r with errors := r.errors ++ ["Failed to parse exit code " ++ c],
                   status := TestStatus.FAILED, retry := true }
      | some n =>
          if n ∈ expect then exitCodesLoop r rest expect unexpected status
          else
            exitCodesLoop
              { r with errors := r.errors ++ ["Unexpected exit code " ++ c] }
              rest expect true status

/-- Embeds `TestResult.check_exit_codes`: a `PANIC` status returns unchanged;
an empty bucket appends "Missing exit code!" and, only when the status is
`SUCCESS`, demotes it to `FAILED` and returns; otherwise the token loop runs
(over the same, possibly empty, list). -/
def TestResult.check_exit_codes (r : TestResult) (exit_codes : List String)
    (expect : List Int) (status : Option TestStatus) : TestResult :=
  if r.status = TestStatus.PANIC then r
  else if exit_codes = [] ∧ r.status = TestStatus.SUCCESS then
    { r with errors := r.errors ++ ["Missing exit code!"],
             status := TestStatus.FAILED }
  else
    let r1 :=
      if exit_codes = [] then
        { r with errors := r.errors ++ ["Missing exit code!"] }
      else r
    exitCodesLoop r1 exit_codes expect false status

/-! ### LogAnalyzer, from `log_analyzer.py` -/

/-- Lookup of a `TestStatus` member by name, as Python `TestStatus[name]`;
`none` models a raised `KeyError`. -/
def statusFromName (s : String) : Option TestStatus :=
  if s = "PANIC" then some TestStatus.PANIC
  else if s = "FAILED" then some TestStatus.FAILED
  else if s = "TIMEOUT" then some TestStatus.TIMEOUT
  else if s = "SUCCESS" then some TestStatus.SUCCESS
  else if s = "DISABLED" then some TestStatus.DISABLED
  else if s = "NOT_RUN" then some TestStatus.NOT_RUN
  else none

/-- The status an analyze loop iteration computes from a config entry:
`None` when `set_status` is falsy (`None` or empty), else the enum lookup.
The outer `none` models the uncaught `KeyError` of an unknown name. -/
def entryStatus (e : AnalyzeConfigEntry) : Option (Option TestStatus) :=
  match e.set_status with
  | none => some none
  | some s =>
      if s = "" then some none
      else
        match statusFromName s with
        | none => none
        | some ts => some (some ts)

/-- Python `x or default` on an optional list: `None` and `[]` are falsy. -/
def pyListOr (o : Option (List Int)) (d : List Int) : List Int :=
  match o with
  | none => d
  | some [] => d
  | some l => l

/-- Embeds the mode dispatch in the body of the `analyze` loop (with the
`if not logs: continue` guard commented out in the source, empty buckets
reach every mode). -/
def applyEntry (test_spec : TestSpec) (entry : AnalyzeConfigEntry)
    (r : TestResult) (logs : List String) (st : Option TestStatus) : TestResult :=
  if entry.mode = "add_as_error" then r.add_errors logs st
  else if entry.mode = "add_as_error_join" then
    r.add_errors ["```\n" ++ String.join logs ++ "```\n"] st
  else if entry.mode = "add_as_error_last" then r.add_errors (logs.take 1) st
  else if entry.mode = "retry" then
    { r.add_errors ["Retry caused by " ++ entry.name] none with retry := true }
  else if entry.mode = "expect_stdout" then
    r.check_expect_stdout logs test_spec st
  else if entry.mode = "exit_codes" then
    r.check_exit_codes logs (pyListOr test_spec.expect_exit_codes [0]) st
  else r

/-- Embeds the `for entry_name, logs in log_data.items()` loop of
`LogAnalyzer.analyze`; `log_data` is the dict in iteration (insertion)
order.  A bucket whose name matches no config entry, or whose entry's
`set_status` names no `TestStatus` member, raises in Python — modelled by
`none`. -/
def analyzeEntries (test_spec : TestSpec) (config : List AnalyzeConfigEntry)
    (r : TestResult) : List (String × List String) → Option TestResult
  | [] => some r
  | (name, logs) :: rest =>
      match config.find? (fun e => e.name = name) with
      | none => none
      | some entry =>
          match entryStatus entry with
          | none => none
          | some st =>
              analyzeEntries test_spec config (applyEntry test_spec entry r logs st) rest

/-- Embeds `LogAnalyzer.analyze`: start from `SUCCESS`; a disabled spec
returns `DISABLED` at once; a `STOPPED` watchdog appends an infrastructure
error; a `TIMEOUT` watchdog (unless the spec expects it) appends an error and
sets `TIMEOUT`; then every bucket is processed in order. -/
def LogAnalyzer.analyze (test_spec : TestSpec) (config : List AnalyzeConfigEntry)
    (log_data : List (String × List String))
    (w : InterruptWatchdog.Status) : Option TestResult :=
  let result : TestResult := { status := TestStatus.SUCCESS, errors := [], retry := false }
  if test_spec.disabled then some { result with status := TestStatus.DISABLED }
  else
    let result :=
      if w = InterruptWatchdog.Status.STOPPED then
        result.add_errors ["Test killed, because no more interrupts were coming"] none
      else result
    let result :=
      if w = InterruptWatchdog.Status.TIMEOUT ∧ ¬ test_spec.expect_timeout then
        result.add_errors ["Test execution timeout"] (some TestStatus.TIMEOUT)
      else result
    analyzeEntries test_spec config result log_data

/-! ### Test scheduler, from `test_runner.py` (`run_tests`) -/

/-- One test run. Modelled from the spec: the old `test.py` module is not under
`src/`; per spec §3 a run is a (specification, run index) pair owning a mutable
`TestResult`, and `repr(test)` — the key of the running-tests dict — is
determined by name and run index. -/
structure Test where
  name : String
  num : Nat
  result : TestResult
deriving DecidableEq

/-- A fresh result, as `TestResult(test.name)` builds one on requeue.
Modelled from the spec: the old `test.py` constructor is not under `src/`;
spec §3 gives the `NOT_RUN` member for a run not yet executed, and the
dataclass defaults in `log_analyzer.py` give `errors = []`, `retry = False`. -/
def TestResult.fresh : TestResult :=
  { status := TestStatus.NOT_RUN, errors := [], retry := false }

/-- Same dict key: `repr(test)` is determined by name and run number. -/
def sameRun (a b : Test) : Bool :=
  a.name == b.name && a.num == b.num

/-- The scheduler's shared state: the work queue (`test_queue`), the running
set (`running_tests`), and the runs recorded as terminal.  The source records
a terminal run by updating a SUCCESS/FAIL counter and leaving the run's result
in place for the summary; `done` models that recording. -/
structure SchedulerState where
  queue : List Test
  running : List Test
  done : List Test
deriving DecidableEq

/-- Embeds `thread_callback` of `run_tests`: pop the run from the running
set; when its result has `retry` set, give it a fresh result and append it
back onto the work queue (nothing is recorded); otherwise record it as
terminal. -/
def thread_callback (s : SchedulerState) (t : Test) : SchedulerState :=
  let s1 : SchedulerState :=
    { s with running := s.running.filter (fun u => !(sameRun u t)) }
  if t.result.retry then
    { s1 with queue := s1.queue ++ [{ t with result := TestResult.fresh }] }
  else
    { s1 with done := s1.done ++ [t] }

/-- One scheduler transition: `start` dequeues the run at the end of the work
queue (Python `list.pop()`) and moves it to the running set (`run_test`);
`complete` finishes a running run with some result produced by `_run` — any
result, including one whose `retry` was set because the VM never came
alive — and runs `thread_callback` on it. -/
inductive SchedStep : SchedulerState → SchedulerState → Prop where
  | start (q : List Test) (t : Test) (running done : List Test) :
      SchedStep { queue := q ++ [t], running := running, done := done }
                { queue := q, running := running ++ [t], done := done }
  | complete (s : SchedulerState) (t : Test) (res : TestResult)
      (hmem : t ∈ s.running) :
      SchedStep s (thread_callback s { t with result := res })

/-! ### Helper lemmas: `pyRepr` is injective

Python `repr` never maps two different strings to the same text; the analyzer
relies on this when it compares `repr(actual)` with `repr(expected)`.  We prove
it for the model by exhibiting a left inverse of the escaping. -/

/-- Read one escaped character back off the front of an escaped stream. -/
def unescape1 (q : Char) (l : List Char) : Option (Char × List Char) :=
  match l with
  | [] => none
  | c :: rest =>
      if c = '\\' then
        match rest with
        | [] => none
        | d :: rest2 =>
            if d = '\\' then some ('\\', rest2)
            else if d = 'n' then some ('\n', rest2)
            else if d = 'r' then some ('\r', rest2)
            else if d = 't' then some ('\t', rest2)
            else if d = q then some (q, rest2)
            else if d = 'x' then
              match rest2 with
              | h1 :: h2 :: rest3 => some (Char.ofNat (16 * hexVal h1 + hexVal h2), rest3)
              | _ => none
            else none
      else some (c, rest)

lemma hexVal_hexDig (n : Nat) (h : n < 16) : hexVal (hexDig n) = n := by
  interval_cases n <;> decide

lemma escChar_ne_nil (q c : Char) : escChar q c ≠ [] := by
  unfold escChar; split_ifs <;> simp

lemma unescape1_escChar (q c : Char) (rest : List Char)
    (hq : q = '\'' ∨ q = '"') :
    unescape1 q (escChar q c ++ rest) = some (c, rest) := by
  have hqbs : q ≠ '\\' := by rcases hq with h | h <;> simp [h]
  have hqn : q ≠ 'n' := by rcases hq with h | h <;> simp [h]
  have hqr : q ≠ 'r' := by rcases hq with h | h <;> simp [h]
  have hqt : q ≠ 't' := by rcases hq with h | h <;> simp [h]
  have hqx : q ≠ 'x' := by rcases hq with h | h <;> simp [h]
  unfold escChar
  by_cases h1 : c = '\\'
  · subst h1; simp [unescape1]
  rw [if_neg h1]
  by_cases h2 : c = q
  · subst h2
    simp [unescape1, hqbs, hqn, hqr, hqt]
  rw [if_neg h2]
  by_cases h3 : c = '\n'
  · subst h3; simp [unescape1]
  rw [if_neg h3]
  by_cases h4 : c = '\r'
  · subst h4; simp [unescape1]
  rw [if_neg h4]
  by_cases h5 : c = '\t'
  · subst h5; simp [unescape1]
  rw [if_neg h5]
  by_cases h6 : c.toNat < 32 ∨ c.toNat = 127
  · rw [if_pos h6]
    have hd : c.toNat / 16 < 16 := by omega
    have hm : c.toNat % 16 < 16 := Nat.mod_lt _ (by omega)
    have hxq : ('x' : Char) ≠ q := fun h => hqx h.symm
    have harith : 16 * (c.toNat / 16) + c.toNat % 16 = c.toNat := by omega
    simp [unescape1, hxq, hexVal_hexDig _ hd, hexVal_hexDig _ hm, harith,
      Char.ofNat_toNat]
  · rw [if_neg h6]
    simp [unescape1, h1]

lemma pyEscape_injOn (q : Char) (hq : q = '\'' ∨ q = '"') :
    ∀ xs ys : List Char, pyEscape q xs = pyEscape q ys → xs = ys := by
  intro xs
  induction xs with
  | nil =>
      intro ys h
      cases ys with
      | nil => rfl
      | cons y ys =>
          exfalso
          simp only [pyEscape] at h
          exact escChar_ne_nil q y (List.append_eq_nil.mp h.symm).1
  | cons x xs ih =>
      intro ys h
      cases ys with
      | nil =>
          exfalso
          simp only [pyEscape] at h
          exact escChar_ne_nil q x (List.append_eq_nil.mp h).1
      | cons y ys =>
          simp only [pyEscape] at h
          have h1 := congrArg (unescape1 q) h
          rw [unescape1_escChar q x _ hq, unescape1_escChar q y _ hq] at h1
          have h2 := Option.some.inj h1
          have hx : x = y := congrArg Prod.fst h2
          have hrest : pyEscape q xs = pyEscape q ys := congrArg Prod.snd h2
          rw [hx, ih ys hrest]

lemma pyQuote_cases (s : String) : pyQuote s = '\'' ∨ pyQuote s = '"' := by
  unfold pyQuote; split_ifs <;> simp

lemma pyRepr_inj (s t : String) (h : pyRepr s = pyRepr t) : s = t := by
  unfold pyRepr at h
  injection h with hdata
  injection hdata with hq hbody
  rw [← hq] at hbody
  have hesc := List.append_cancel_right hbody
  have hlist := pyEscape_injOn (pyQuote s) (pyQuote_cases s) s.toList t.toList hesc
  cases s; cases t
  simp only [String.toList] at hlist
  simp [hlist]

/-! ### Helper lemmas: the exit-code loop and the scheduler callback -/

/-- Errors the exit-code loop appends for a run of parsable tokens: one
"Unexpected exit code" line per token whose value is not among the expected
codes. -/
def unexpectedErrors (codes : List String) (expect : List Int) : List String :=
  codes.filterMap (fun c =>
    match pyInt c with
    | some n => if n ∈ expect then none else some ("Unexpected exit code " ++ c)
    | none => none)

lemma exitCodesLoop_parse_fail (pre : List String) :
    ∀ (r : TestResult) (u : Bool) (bad : String) (post : List String)
      (expect : List Int) (st : Option TestStatus),
      (∀ c ∈ pre, (pyInt c).isSome) → pyInt bad = none →
      exitCodesLoop r (pre ++ bad :: post) expect u st =
        { status := TestStatus.FAILED,
          errors := r.errors ++ unexpectedErrors pre expect ++
            ["Failed to parse exit code " ++ bad],
          retry := true } := by
  induction pre with
  | nil =>
      intro r u bad post expect st _ hbad
      simp [exitCodesLoop, hbad, unexpectedErrors]
  | cons c cs ih =>
      intro r u bad post expect st hpre hbad
      have hc : (pyInt c).isSome := hpre c (by simp)
      obtain ⟨n, hn⟩ := Option.isSome_iff_exists.mp hc
      have hcs : ∀ d ∈ cs, (pyInt d).isSome := fun d hd => hpre d (by simp [hd])
      by_cases hmem : n ∈ expect
      · simp only [List.cons_append, exitCodesLoop, hn, if_pos hmem, List.append_eq]
        rw [ih r u bad post expect st hcs hbad]
        simp [unexpectedErrors, hn, hmem]
      · simp only [List.cons_append, exitCodesLoop, hn, if_neg hmem, List.append_eq]
        rw [ih _ true bad post expect st hcs hbad]
        simp [unexpectedErrors, hn, hmem, List.append_assoc]

lemma thread_callback_done (s : SchedulerState) (t : Test) :
    (thread_callback s t).done = s.done ∨
    ((thread_callback s t).done = s.done ++ [t] ∧ t.result.retry = false) := by
  unfold thread_callback
  by_cases hr : t.result.retry
  · left; simp [hr]
  · right
    refine ⟨by simp [hr], ?_⟩
    simpa using hr

/-! ### The claims -/

/-- Claim C1: for every log_data mapping and every watchdog status, a disabled
test specification makes `LogAnalyzer.analyze` return `DISABLED` immediately,
with no errors and no retry, regardless of log content or watchdog status. -/
theorem claim_C1_disabled_short_circuit (spec : TestSpec)
    (config : List AnalyzeConfigEntry) (log_data : List (String × List String))
    (w : InterruptWatchdog.Status) (h : spec.disabled = true) :
    LogAnalyzer.analyze spec config log_data w =
      some { status := TestStatus.DISABLED, errors := [], retry := false } := by
  simp [LogAnalyzer.analyze, h]

/-- Witness for C1 at a concrete disabled spec, nonempty log data and a
STOPPED watchdog. -/
theorem claim_C1_witness :
    (⟨true, false, none, none⟩ : TestSpec).disabled = true ∧
    LogAnalyzer.analyze ⟨true, false, none, none⟩ [] [("exit_codes", ["1"])]
        InterruptWatchdog.Status.STOPPED =
      some { status := TestStatus.DISABLED, errors := [], retry := false } :=
  ⟨rfl, claim_C1_disabled_short_circuit _ _ _ _ rfl⟩

/-- Claim C2: panic dominance — when the result's status is PANIC,
`check_exit_codes` returns it completely unchanged, for every exit-code line
list, expectation list and setStatus. -/
theorem claim_C2_panic_dominance (r : TestResult) (codes : List String)
    (expect : List Int) (st : Option TestStatus)
    (h : r.status = TestStatus.PANIC) :
    r.check_exit_codes codes expect st = r := by
  simp [TestResult.check_exit_codes, h]

/-- Witness for C2 at a PANIC result with mismatched and unparsable codes. -/
theorem claim_C2_witness :
    (⟨TestStatus.PANIC, ["kernel panic"], false⟩ : TestResult).status =
      TestStatus.PANIC ∧
    TestResult.check_exit_codes ⟨TestStatus.PANIC, ["kernel panic"], false⟩
        ["1", "x"] [0] (some TestStatus.FAILED) =
      ⟨TestStatus.PANIC, ["kernel panic"], false⟩ :=
  ⟨rfl, claim_C2_panic_dominance _ _ _ _ rfl⟩

/-- Claim C3, counterexample: on the claim's own input — captured lines
`["##EXPECT##hi", "##EXPECT##world\n"]` and expected stdout `"hiworld"` —
the code does record a mismatch (it reconstructs `"hworl"`, because every
non-final marker line loses one trailing character and the final one loses
two), so the result is not unchanged as the claim asserts. -/
theorem claim_C3_counterexample :
    TestResult.check_expect_stdout ⟨TestStatus.SUCCESS, [], false⟩
        ["##EXPECT##hi", "##EXPECT##world\n"]
        ⟨false, false, some "hiworld", none⟩ none =
      ⟨TestStatus.SUCCESS,
        ["Expected output:\n'hiworld'", "Actual output:\n'hworl'"], false⟩ ∧
    ¬ TestResult.check_expect_stdout ⟨TestStatus.SUCCESS, [], false⟩
        ["##EXPECT##hi", "##EXPECT##world\n"]
        ⟨false, false, some "hiworld", none⟩ none =
      ⟨TestStatus.SUCCESS, [], false⟩ :=
  ⟨by decide, by decide⟩

/-- Claim C3 as amended: `check_expect_stdout` reconstructs the guest stdout
by stripping the marker and one trailing character from every non-final
marker line and two trailing characters from the final line, then joining;
for the claim's input the reconstruction is `"hworl"`, so a mismatch is
recorded there; whenever the reconstruction differs from the (non-empty)
expected stdout, exactly two errors — the expected and the actual string —
are appended and the configured setStatus is applied, and when they agree
the result is unchanged. -/
theorem claim_C3_amended (r : TestResult) (logs : List String) (spec : TestSpec)
    (es : String) (st : Option TestStatus)
    (h1 : spec.expect_stdout = some es) (h2 : es ≠ "") :
    (joinedActual logs = es → r.check_expect_stdout logs spec st = r) ∧
    (joinedActual logs ≠ es →
      r.check_expect_stdout logs spec st =
        TestResult.set_status
          { r with errors := r.errors ++
              ["Expected output:\n" ++ pyRepr es,
               "Actual output:\n" ++ pyRepr (joinedActual logs)] } st) ∧
    joinedActual ["##EXPECT##hi", "##EXPECT##world\n"] = "hworl" := by
  refine ⟨?_, ?_, by decide⟩
  · intro heq
    simp [TestResult.check_expect_stdout, h1, h2, ← heq]
  · intro hne
    have hrepr : ¬ pyRepr (joinedActual logs) = pyRepr es :=
      fun hr => hne (pyRepr_inj _ _ hr)
    simp [TestResult.check_expect_stdout, h1, h2, hrepr]

/-- Witness for the amended C3 at the claim's concrete input. -/
theorem claim_C3_witness :
    (⟨false, false, some "hiworld", none⟩ : TestSpec).expect_stdout =
        some "hiworld" ∧
    ("hiworld" : String) ≠ "" ∧
    ((joinedActual ["##EXPECT##hi", "##EXPECT##world\n"] = "hiworld" →
        TestResult.check_expect_stdout ⟨TestStatus.SUCCESS, [], false⟩
          ["##EXPECT##hi", "##EXPECT##world\n"]
          ⟨false, false, some "hiworld", none⟩ none =
        ⟨TestStatus.SUCCESS, [], false⟩) ∧
      (joinedActual ["##EXPECT##hi", "##EXPECT##world\n"] ≠ "hiworld" →
        TestResult.check_expect_stdout ⟨TestStatus.SUCCESS, [], false⟩
          ["##EXPECT##hi", "##EXPECT##world\n"]
          ⟨false, false, some "hiworld", none⟩ none =
        TestResult.set_status
          { (⟨TestStatus.SUCCESS, [], false⟩ : TestResult) with
              errors := ([] : List String) ++
                ["Expected output:\n" ++ pyRepr "hiworld",
                 "Actual output:\n" ++
                   pyRepr (joinedActual ["##EXPECT##hi", "##EXPECT##world\n"])] }
          none) ∧
      joinedActual ["##EXPECT##hi", "##EXPECT##world\n"] = "hworl") :=
  ⟨rfl, by decide,
    claim_C3_amended ⟨TestStatus.SUCCESS, [], false⟩
      ["##EXPECT##hi", "##EXPECT##world\n"]
      ⟨false, false, some "hiworld", none⟩ "hiworld" none rfl (by decide)⟩

/-- Claim C4: exit-code round trip — lines `["0"]` against expected `[0]` on a
SUCCESS result change nothing and append no error; lines `["1"]` against `[0]`
set the rule's configured setStatus (FAILED in the standard configuration) and
append exactly one "unexpected exit code" error plus one "expected exit
code(s)" error. -/
theorem claim_C4_exit_code_round_trip :
    (∀ st : Option TestStatus,
      TestResult.check_exit_codes ⟨TestStatus.SUCCESS, [], false⟩ ["0"] [0] st =
        ⟨TestStatus.SUCCESS, [], false⟩) ∧
    ∀ s : TestStatus,
      TestResult.check_exit_codes ⟨TestStatus.SUCCESS, [], false⟩ ["1"] [0]
          (some s) =
        ⟨s, ["Unexpected exit code 1", "Expected exit code(s): 0"], false⟩ := by
  constructor
  · intro st; rfl
  · intro s; rfl

/-- Claim C5: an unparsable exit-code token appends a parse-failure error,
sets status FAILED and retry, and aborts the rule — tokens after the first
unparsable one are never examined and no further error is appended (the
errors end with the parse-failure message). -/
theorem claim_C5_parse_failure_aborts (r : TestResult) (pre post : List String)
    (bad : String) (expect : List Int) (st : Option TestStatus)
    (h0 : r.status ≠ TestStatus.PANIC)
    (hpre : ∀ c ∈ pre, (pyInt c).isSome)
    (hbad : pyInt bad = none) :
    r.check_exit_codes (pre ++ bad :: post) expect st =
      { status := TestStatus.FAILED,
        errors := r.errors ++ unexpectedErrors pre expect ++
          ["Failed to parse exit code " ++ bad],
        retry := true } := by
  have hne : pre ++ bad :: post ≠ [] := by cases pre <;> simp
  have hand : ¬(pre ++ bad :: post = [] ∧ r.status = TestStatus.SUCCESS) :=
    fun hand => hne hand.1
  simp only [TestResult.check_exit_codes, if_neg h0, if_neg hand, if_neg hne]
  exact exitCodesLoop_parse_fail pre r false bad post expect st hpre hbad

/-- Witness for C5: token list `["0", "x", "7"]` — the `"7"` after the bad
token is never examined and the errors end with the parse failure. -/
theorem claim_C5_witness :
    (⟨TestStatus.SUCCESS, [], false⟩ : TestResult).status ≠ TestStatus.PANIC ∧
    (∀ c ∈ (["0"] : List String), (pyInt c).isSome) ∧
    pyInt "x" = none ∧
    TestResult.check_exit_codes ⟨TestStatus.SUCCESS, [], false⟩
        (["0"] ++ "x" :: ["7"]) [0] none =
      { status := TestStatus.FAILED,
        errors := ["Failed to parse exit code x"],
        retry := true } :=
  ⟨by decide, by decide, by decide,
    claim_C5_parse_failure_aborts _ _ _ _ _ _ (by decide) (by decide) (by decide)⟩

/-- Claim C6: an empty exit-code bucket always appends the "Missing exit
code!" error (on a non-PANIC result), demotes SUCCESS to FAILED, and leaves
every other status untouched. -/
theorem claim_C6_missing_exit_code (r : TestResult) (expect : List Int)
    (st : Option TestStatus) (h : r.status ≠ TestStatus.PANIC) :
    r.check_exit_codes [] expect st =
      { r with errors := r.errors ++ ["Missing exit code!"],
               status := if r.status = TestStatus.SUCCESS then TestStatus.FAILED
                         else r.status } := by
  by_cases hs : r.status = TestStatus.SUCCESS
  · simp [TestResult.check_exit_codes, h, hs]
  · simp [TestResult.check_exit_codes, h, hs, exitCodesLoop]

/-- Witness for C6 at a TIMEOUT result: the error is appended, and the status
stays TIMEOUT even though the rule carries a FAILED setStatus. -/
theorem claim_C6_witness :
    (⟨TestStatus.TIMEOUT, [], false⟩ : TestResult).status ≠ TestStatus.PANIC ∧
    TestResult.check_exit_codes ⟨TestStatus.TIMEOUT, [], false⟩ [] [0]
        (some TestStatus.FAILED) =
      ⟨TestStatus.TIMEOUT, ["Missing exit code!"], false⟩ :=
  ⟨by decide, claim_C6_missing_exit_code _ _ _ (by decide)⟩

/-- Claim C7, counterexample: a rule in mode `add_as_error_join` over an
empty bucket does contribute — it appends one error, an empty fenced block —
so the result is not the untouched one the claim asserts (the guard that
skipped empty buckets is commented out in the source). -/
theorem claim_C7_counterexample :
    LogAnalyzer.analyze ⟨false, false, none, none⟩
        [⟨"bucket", "add_as_error_join", none⟩] [("bucket", [])]
        InterruptWatchdog.Status.FOUND =
      some ⟨TestStatus.SUCCESS, ["```\n```\n"], false⟩ ∧
    ¬ LogAnalyzer.analyze ⟨false, false, none, none⟩
        [⟨"bucket", "add_as_error_join", none⟩] [("bucket", [])]
        InterruptWatchdog.Status.FOUND =
      some ⟨TestStatus.SUCCESS, [], false⟩ :=
  ⟨by decide, by decide⟩

/-- Claim C7 as amended: a rule over an empty bucket contributes nothing in
the `add_as_error` and `add_as_error_last` modes, but not in the others —
`add_as_error_join` appends one empty fenced block and applies setStatus,
`retry` appends its diagnostic and sets the retry flag, `expect_stdout`
records a mismatch when a non-empty stdout is expected, and `exit_codes`
records the missing exit code (demoting SUCCESS to FAILED). -/
theorem claim_C7_amended (spec : TestSpec) (name : String) (ss : Option String)
    (r : TestResult) (st : Option TestStatus) :
    applyEntry spec ⟨name, "add_as_error", ss⟩ r [] st = r ∧
    applyEntry spec ⟨name, "add_as_error_last", ss⟩ r [] st = r ∧
    applyEntry spec ⟨name, "add_as_error_join", ss⟩ r [] st =
      TestResult.set_status { r with errors := r.errors ++ ["```\n```\n"] } st ∧
    applyEntry spec ⟨name, "retry", ss⟩ r [] st =
      { r with errors := r.errors ++ ["Retry caused by " ++ name],
               retry := true } ∧
    applyEntry ⟨false, false, some "x", none⟩ ⟨name, "expect_stdout", ss⟩
        ⟨TestStatus.SUCCESS, [], false⟩ [] st =
      TestResult.set_status
        ⟨TestStatus.SUCCESS, ["Expected output:\n'x'", "Actual output:\n''"],
          false⟩ st ∧
    applyEntry ⟨false, false, none, none⟩ ⟨name, "exit_codes", ss⟩
        ⟨TestStatus.SUCCESS, [], false⟩ [] st =
      ⟨TestStatus.FAILED, ["Missing exit code!"], false⟩ :=
  ⟨rfl, rfl, rfl, rfl, rfl, rfl⟩

/-- Claim C8: the `add_as_error_last` mode over a non-empty bucket appends
exactly one error and it is the bucket's first line (index 0), despite the
mode's name; the configured setStatus is applied. -/
theorem claim_C8_error_last_takes_first (spec : TestSpec) (name : String)
    (ss : Option String) (r : TestResult) (line : String) (rest : List String)
    (st : Option TestStatus) :
    applyEntry spec ⟨name, "add_as_error_last", ss⟩ r (line :: rest) st =
      TestResult.set_status { r with errors := r.errors ++ [line] } st := rfl

/-- Claim C9: the completion callback discards a retry-flagged result
(replacing it with a fresh one) and re-enqueues the same run instead of
recording it; consequently, along every scheduler run from a state with
nothing recorded, no recorded terminal result has the retry flag set. -/
theorem claim_C9_retry_requeue (s0 s : SchedulerState) (h0 : s0.done = [])
    (h : Relation.ReflTransGen SchedStep s0 s) :
    (∀ t ∈ s.done, t.result.retry = false) ∧
    (∀ (u : SchedulerState) (t : Test), t.result.retry = true →
      (thread_callback u t).done = u.done ∧
      (thread_callback u t).queue =
        u.queue ++ [{ t with result := TestResult.fresh }]) := by
  constructor
  · induction h with
    | refl => simp [h0]
    | @tail b c h1 step ih =>
        cases step with
        | start q t running done => exact ih
        | complete s1 t res hmem =>
            rcases thread_callback_done b { t with result := res } with
              hd | ⟨hd, hret⟩
            · rw [hd]; exact ih
            · rw [hd]
              intro x hx
              rcases List.mem_append.mp hx with hx1 | hx2
              · exact ih x hx1
              · rw [List.mem_singleton.mp hx2]; exact hret
  · intro u t hr
    constructor
    · simp [thread_callback, hr]
    · simp [thread_callback, hr]

/-- Witness for C9: a one-test scheduler that starts its run, completes it
with a retry-flagged FAILED result, and is back at its initial state — the
run is re-enqueued with a fresh result and nothing is recorded. -/
theorem claim_C9_witness :
    (⟨[⟨"t", 0, ⟨TestStatus.NOT_RUN, [], false⟩⟩], [], []⟩ :
        SchedulerState).done = [] ∧
    Relation.ReflTransGen SchedStep
      ⟨[⟨"t", 0, ⟨TestStatus.NOT_RUN, [], false⟩⟩], [], []⟩
      ⟨[⟨"t", 0, ⟨TestStatus.NOT_RUN, [], false⟩⟩], [], []⟩ ∧
    ((∀ t ∈ (⟨[⟨"t", 0, ⟨TestStatus.NOT_RUN, [], false⟩⟩], [], []⟩ :
        SchedulerState).done, t.result.retry = false) ∧
      (∀ (u : SchedulerState) (t : Test), t.result.retry = true →
        (thread_callback u t).done = u.done ∧
        (thread_callback u t).queue =
          u.queue ++ [{ t with result := TestResult.fresh }])) := by
  have step1 : SchedStep
      ⟨[⟨"t", 0, ⟨TestStatus.NOT_RUN, [], false⟩⟩], [], []⟩
      ⟨[], [⟨"t", 0, ⟨TestStatus.NOT_RUN, [], false⟩⟩], []⟩ :=
    SchedStep.start [] ⟨"t", 0, ⟨TestStatus.NOT_RUN, [], false⟩⟩ [] []
  have step2 : SchedStep
      ⟨[], [⟨"t", 0, ⟨TestStatus.NOT_RUN, [], false⟩⟩], []⟩
      ⟨[⟨"t", 0, ⟨TestStatus.NOT_RUN, [], false⟩⟩], [], []⟩ :=
    SchedStep.complete ⟨[], [⟨"t", 0, ⟨TestStatus.NOT_RUN, [], false⟩⟩], []⟩
      ⟨"t", 0, ⟨TestStatus.NOT_RUN, [], false⟩⟩
      ⟨TestStatus.FAILED, ["went wrong"], true⟩ (by simp)
  have trace := Relation.ReflTransGen.tail
    (Relation.ReflTransGen.single step1) step2
  exact ⟨rfl, trace, claim_C9_retry_requeue _ _ rfl trace⟩

/-- Claim C10: a STOPPED watchdog on a non-disabled spec appends the
infrastructure error "Test killed, because no more interrupts were coming"
without touching the status; with no rule setting a status, the result is
SUCCESS with that non-empty error list and no retry. -/
theorem claim_C10_stopped_error_keeps_success (spec : TestSpec)
    (config : List AnalyzeConfigEntry) (h : spec.disabled = false) :
    LogAnalyzer.analyze spec config [] InterruptWatchdog.Status.STOPPED =
      some { status := TestStatus.SUCCESS,
             errors := ["Test killed, because no more interrupts were coming"],
             retry := false } := by
  simp [LogAnalyzer.analyze, h, TestResult.add_errors, TestResult.set_status,
    analyzeEntries]

/-- Witness for C10 at a concrete non-disabled spec. -/
theorem claim_C10_witness :
    (⟨false, false, none, none⟩ : TestSpec).disabled = false ∧
    LogAnalyzer.analyze ⟨false, false, none, none⟩ [] []
        InterruptWatchdog.Status.STOPPED =
      some { status := TestStatus.SUCCESS,
             errors := ["Test killed, because no more interrupts were coming"],
             retry := false } :=
  ⟨rfl, claim_C10_stopped_error_keeps_success _ _ rfl⟩
